import Mathlib

/-!
# Verification of client-side UI behaviors of src/static/js/app.js

This file gives a shallow embedding, in Lean 4, of the pure content of the
event handlers defined in src/static/js/app.js of the CRMStore repository:
the theme manager, the submit loading-state, row-click navigation, the
confirm-action modal, keyboard shortcuts and the debounced global search
(its input handler, its fetch callback and its result renderer).

DOM mutation is modeled by explicit state passing: each handler becomes a
pure function from the state it reads to the state it writes, and every
externally visible effect (navigation, form submission, network request)
becomes a value in the function's result.  JavaScript truthiness on strings
(null / undefined / empty string are falsy) is modeled with Option String
together with emptiness tests, exactly where the source tests truthiness.
-/

set_option autoImplicit false

namespace CRMStore

/-- JavaScript `s || d` for an optional string `s`: `undefined`, `null` and
the empty string are falsy, any other string is returned as is. -/
def jsOr (s : Option String) (d : String) : String :=
  match s with
  | none => d
  | some t => if t = "" then d else t

/-- White-space characters stripped by the JavaScript `trim()` method
(restricted to the ASCII ones, which are the only ones a query can
plausibly contain here). -/
def isJsWhitespace (c : Char) : Bool :=
  c = ' ' ∨ c = '\t' ∨ c = '\n' ∨ c = '\r' ∨ c = '\x0b' ∨ c = '\x0c'

/-- The JavaScript `trim()` method: drops white space from both ends. -/
def jsTrim (s : String) : String :=
  ⟨((s.data.dropWhile isJsWhitespace).reverse.dropWhile isJsWhitespace).reverse⟩

/-- The JavaScript `toLowerCase()` method, character by character. -/
def jsToLower (s : String) : String :=
  ⟨s.data.map Char.toLower⟩

/-! ## Theme manager (`setTheme`, `initTheme`)

State observed and written by the theme code: the `data-theme` attribute of
the document root, the `localStorage` entry under key `crm_theme`, and the
`innerHTML` of the optional toggle button `#themeToggle`. -/

/-- Inner HTML of the theme toggle for the dark theme (source line 12). -/
def sunToggleHtml : String :=
  "<i class=\"bi bi-sun\"></i><span>Світла тема</span>"

/-- Inner HTML of the theme toggle for any non-dark theme (source line 13). -/
def moonToggleHtml : String :=
  "<i class=\"bi bi-moon-stars\"></i><span>Темна тема</span>"

/-- State touched by the theme manager: the root element's `data-theme`
attribute, the persisted `crm_theme` storage entry, and the toggle button's
`innerHTML` (`none` models an absent attribute or storage entry; the toggle
html is only meaningful when the toggle element exists). -/
structure ThemeState where
  rootAttr : Option String
  stored : Option String
  toggleHtml : Option String
  deriving Repr, DecidableEq

/-- `setTheme(theme)` from the source: sets the root `data-theme`
attribute, persists the value under `crm_theme`, and, when the toggle
button exists (`hasToggle`), rewrites its `innerHTML` according to whether
the theme is exactly the string dark. -/
def setTheme (hasToggle : Bool) (s : ThemeState) (theme : String) : ThemeState :=
  { rootAttr := some theme
    stored := some theme
    toggleHtml :=
      if hasToggle then
        some (if theme = "dark" then sunToggleHtml else moonToggleHtml)
      else s.toggleHtml }

/-- `initTheme()` from the source: reads the persisted value; if it is
truthy it is applied, otherwise the theme derived from the system
preference (`sysDark`) is applied.  (The click listener it installs is
modeled separately as `themeToggleClick`.) -/
def initTheme (hasToggle : Bool) (sysDark : Bool) (s : ThemeState) : ThemeState :=
  match s.stored with
  | some t => if t = "" then setTheme hasToggle s (if sysDark then "dark" else "light")
              else setTheme hasToggle s t
  | none => setTheme hasToggle s (if sysDark then "dark" else "light")

/-- The click handler installed by `initTheme`: applies light when the
current root attribute is exactly dark, and dark otherwise. -/
def themeToggleClick (hasToggle : Bool) (s : ThemeState) : ThemeState :=
  setTheme hasToggle s (if s.rootAttr = some "dark" then "light" else "dark")

/-! ## Global search: result rendering (`renderSearchResults`) -/

/-- One entry of a search response group, per the endpoint contract:
`url`, `title`, and an optional `meta` string. -/
structure SearchItem where
  url : String
  title : String
  meta : Option String
  deriving Repr, DecidableEq

/-- A search response payload: an object with optional array fields
`orders`, `customers`, `products` (`none` models an absent field). -/
structure SearchPayload where
  orders : Option (List SearchItem)
  customers : Option (List SearchItem)
  products : Option (List SearchItem)
  deriving Repr, DecidableEq

/-- The results panel: its `innerHTML` and its `hidden` property. -/
structure SearchPanel where
  innerHTML : String
  hidden : Bool
  deriving Repr, DecidableEq

/-- The html of one result row (the template literal on source line 196). -/
def itemHtml (item : SearchItem) : String :=
  "<a class=\"global-search-item\" href=\"" ++ item.url ++ "\"><span>" ++
    item.title ++ "</span><span class=\"global-search-meta\">" ++
    jsOr item.meta "" ++ "</span></a>"

/-- The html contributed by one group of `renderSearchResults`: nothing
when the item list is empty, otherwise a section holding the group title
and one row per item (source lines 192-198). -/
def groupHtml (title : String) (items : List SearchItem) : String :=
  if items = [] then ""
  else
    "<section class=\"global-search-group\"><div class=\"global-search-group-title\">" ++
      title ++ "</div>" ++ String.join (items.map itemHtml) ++ "</section>"

/-- Placeholder rendered when the accumulated html is empty (source line 201). -/
def nothingFoundHtml : String :=
  "<div class=\"global-search-empty\">Нічого не знайдено</div>"

/-- `renderSearchResults(container, payload)` from the source: iterates the
three fixed groups orders, customers, products in that order (each absent
field defaulted to the empty array), concatenates their html, assigns the
placeholder when that concatenation is empty, and un-hides the container.
Both container properties are overwritten, so the result depends only on
the payload. -/
def renderSearchResults (payload : SearchPayload) : SearchPanel :=
  let html :=
    groupHtml "Замовлення" (payload.orders.getD []) ++
    groupHtml "Клієнти" (payload.customers.getD []) ++
    groupHtml "Товари" (payload.products.getD [])
  { innerHTML := if html = "" then nothingFoundHtml else html
    hidden := false }

/-- Specification-side view of a payload for claim C1: the three fixed
categories, in the fixed order orders, customers, products, restricted to
the populated ones, each as its header title paired with its items. -/
def populatedGroups (payload : SearchPayload) : List (String × List SearchItem) :=
  ([("Замовлення", payload.orders.getD []),
    ("Клієнти", payload.customers.getD []),
    ("Товари", payload.products.getD [])]).filter (fun g => ¬ g.2 = [])

/-- Specification-side html of one populated group: a group header followed
by one link row per item. -/
def specGroupBlock (g : String × List SearchItem) : String :=
  "<section class=\"global-search-group\"><div class=\"global-search-group-title\">" ++
    g.1 ++ "</div>" ++ String.join (g.2.map itemHtml) ++ "</section>"

/-! ## Global search: debounced input handler (`initGlobalSearch`)

The input listener reads the input's value, clears the pending debounce
timer, and either hides/clears the panel (trimmed query shorter than 2) or
schedules a fetch of the trimmed query after 180ms.  The fetch itself
happens only when the scheduled timer fires; firing is modeled as a
separate step which emits the request. -/

/-- Ephemeral state of the search overlay: the results panel and the
debounce timer, holding the trimmed query it would fetch (`none` when no
timer is pending). -/
structure SearchState where
  panel : SearchPanel
  timer : Option String
  deriving Repr, DecidableEq

/-- The input-event handler of `initGlobalSearch` (source lines 215-237):
`clearTimeout` drops any pending timer; a trimmed query shorter than 2
characters hides the panel, clears its html and schedules nothing; a longer
trimmed query schedules a fetch of that query and leaves the panel as is. -/
def searchInputStep (s : SearchState) (value : String) : SearchState :=
  let query := jsTrim value
  if query.length < 2 then
    { panel := { innerHTML := "", hidden := true }, timer := none }
  else
    { panel := s.panel, timer := some query }

/-- Elapse of the debounce window: a pending timer fires, emitting exactly
the one scheduled request (identified by its query string); with no pending
timer nothing is emitted. -/
def fireSearchTimer (s : SearchState) : SearchState × List String :=
  match s.timer with
  | none => (s, [])
  | some q => ({ s with timer := none }, [q])

/-- A burst of rapid input events: each event is handled before any timer
fires, so the steps are folded without interleaved firings. -/
def searchBurst (s : SearchState) (values : List String) : SearchState :=
  values.foldl searchInputStep s

/-- Placeholder rendered on a failed search (source line 235). -/
def searchErrorHtml : String :=
  "<div class=\"global-search-empty\">Помилка пошуку</div>"

/-- Outcome of the search fetch as observed by the callback: the fetch
itself may reject, or yield a response with an `ok` status and a body whose
JSON parse may fail (`none`). -/
inductive FetchOutcome where
  | fetchError : FetchOutcome
  | response (ok : Bool) (body : Option SearchPayload) : FetchOutcome
  deriving Repr, DecidableEq

/-- The callback run when the search timer fires and the fetch settles
(source lines 224-236): a non-ok response throws into the catch clause, as
do a rejected fetch and a failed JSON parse; the catch clause un-hides the
panel and writes the error placeholder.  A successful parse renders the
payload.  The function is total — no outcome escapes it — and the second
component lists the follow-up requests it issues, which is always none
(no retry). -/
def searchFetchCallback (outcome : FetchOutcome) : SearchPanel × List String :=
  match outcome with
  | .fetchError => ({ innerHTML := searchErrorHtml, hidden := false }, [])
  | .response ok body =>
      if ok then
        match body with
        | some payload => (renderSearchResults payload, [])
        | none => ({ innerHTML := searchErrorHtml, hidden := false }, [])
      else ({ innerHTML := searchErrorHtml, hidden := false }, [])

/-! ## Submit loading-state (`setButtonLoadingState`, `initLoadingButtons`) -/

/-- A submit control as the loading-state code sees it: its
`data-loading-bound` and `data-loading-text` dataset entries (absent
entries are `none`), its class list, its disabled flag and its inner
html. -/
structure SubmitButton where
  loadingBound : Option String
  loadingText : Option String
  classes : List String
  disabled : Bool
  innerHTML : String
  deriving Repr, DecidableEq

/-- The spinner-plus-label html written by `setButtonLoadingState`
(source line 74), for a given resolved label. -/
def loadingHtml (label : String) : String :=
  "<span class=\"btn-spinner\"></span><span class=\"btn-label\">" ++ label ++
    "</span>"

/-- `classList.add`: appends the class only when not already present. -/
def classListAdd (classes : List String) (c : String) : List String :=
  if c ∈ classes then classes else classes ++ [c]

/-- `setButtonLoadingState(button)` from the source, on a present button:
when the bound flag is already the string 1 the button is left unchanged;
otherwise the flag is set, the loading label resolved (the dataset text or
the default saving label), the btn-loading class added, the control
disabled and its content replaced by spinner plus label. -/
def setButtonLoadingState (b : SubmitButton) : SubmitButton :=
  if b.loadingBound = some "1" then b
  else
    { loadingBound := some "1"
      loadingText := b.loadingText
      classes := classListAdd b.classes "btn-loading"
      disabled := true
      innerHTML := loadingHtml (jsOr b.loadingText "Збереження...") }

/-- The submit-event handler of `initLoadingButtons`: when the form has a
submit control, apply the loading state to it; otherwise do nothing. -/
def formSubmitStep (submit : Option SubmitButton) : Option SubmitButton :=
  submit.map setButtonLoadingState

/-! ## Row-click navigation (`initRowClick`) -/

/-- The selector `a,button,input,select,textarea,label` used to filter out
clicks on nested interactive controls. -/
def interactiveTags : List String :=
  ["a", "button", "input", "select", "textarea", "label"]

/-- The result of `event.target.closest` on that selector, with the click
target's ancestor chain (the target itself first, tag names lowercased)
given as a list: true when some element of the chain is interactive. -/
def closestInteractive (chain : List String) : Bool :=
  chain.any (fun tag => tag ∈ interactiveTags)

/-- The click handler bound by `initRowClick` on a row carrying
`data-row-link`: nothing happens when the click target or one of its
ancestors is interactive; otherwise the attribute is read and, when truthy,
the browser location is set to it.  The result is the navigation performed,
if any. -/
def rowClickNavigation (chain : List String) (rowLink : Option String) :
    Option String :=
  if closestInteractive chain then none
  else
    match rowLink with
    | none => none
    | some href => if href = "" then none else some href

/-! ## Confirm-action modal (`initConfirmModal`) -/

/-- The pending trigger element as the accept handler inspects it: its tag
name, its `href` property (the empty string when the element has none — the
DOM yields an empty string for an anchor without the attribute), its `type`
property and the identifier of its closest owning form, if any. -/
structure ConfirmTrigger where
  tagName : String
  href : String
  button_type : String
  form : Option String
  deriving Repr, DecidableEq

/-- Externally visible effects of accepting a confirmation. -/
inductive ConfirmEffect where
  | navigate (url : String) : ConfirmEffect
  | submitForm (form : String) : ConfirmEffect
  deriving Repr, DecidableEq

/-- State owned by the confirm modal: the pending trigger (idle when
`none`) and whether the dialog is shown. -/
structure ConfirmState where
  pending : Option ConfirmTrigger
  modalShown : Bool
  deriving Repr, DecidableEq

/-- The accept-button click handler (source lines 152-161): with no pending
trigger it returns at once; otherwise an anchor with a truthy href
navigates there, else a submit-typed control requests submission of its
owning form when one exists; then the dialog is hidden and the pending
reference cleared. -/
def confirmAcceptClick (s : ConfirmState) : ConfirmState × List ConfirmEffect :=
  match s.pending with
  | none => (s, [])
  | some t =>
      let effects :=
        if t.tagName = "A" ∧ ¬ t.href = "" then [ConfirmEffect.navigate t.href]
        else if t.button_type = "submit" then
          match t.form with
          | some f => [ConfirmEffect.submitForm f]
          | none => []
        else []
      ({ pending := none, modalShown := false }, effects)

/-! ## Keyboard shortcuts (`initShortcuts`) -/

/-- Tag names whose focus suppresses the shortcuts (source line 167). -/
def textEntryTags : List String :=
  ["INPUT", "TEXTAREA", "SELECT"]

/-- Externally visible effects of the shortcut handler. -/
inductive ShortcutEffect where
  | navigateNewOrder (url : String) : ShortcutEffect
  | focusSearch : ShortcutEffect
  | selectSearch : ShortcutEffect
  deriving Repr, DecidableEq

/-- What one keydown produced: whether default browser behavior was
suppressed, and the effects performed. -/
structure ShortcutOutcome where
  preventedDefault : Bool
  effects : List ShortcutEffect
  deriving Repr, DecidableEq

/-- The global keydown handler of `initShortcuts` (source lines 164-182):
when the active element is an input, textarea or select and the lowercased
key is not escape, the handler returns at once.  Otherwise the key n
suppresses the default and navigates to the detected create-order link
when present, and the key f suppresses the default and focuses and selects
the search input when it exists. -/
def shortcutsKeydown (activeTag : Option String) (newOrderLink : Option String)
    (hasSearchInput : Bool) (key : String) : ShortcutOutcome :=
  let typing :=
    match activeTag with
    | some tag => tag ∈ textEntryTags
    | none => false
  if typing = true ∧ ¬ jsToLower key = "escape" then
    { preventedDefault := false, effects := [] }
  else
    let nEffects :=
      if jsToLower key = "n" then
        match newOrderLink with
        | some url => [ShortcutEffect.navigateNewOrder url]
        | none => []
      else []
    let fEffects :=
      if jsToLower key = "f" then
        if hasSearchInput then [ShortcutEffect.focusSearch, ShortcutEffect.selectSearch]
        else []
      else []
    { preventedDefault := jsToLower key = "n" ∨ jsToLower key = "f"
      effects := nEffects ++ fEffects }

/-! ## Helper lemmas -/

/-- Concatenation of strings is empty exactly when both parts are. -/
theorem string_append_eq_empty_iff (a b : String) :
    a ++ b = "" ↔ a = "" ∧ b = "" := by
  constructor
  · intro h
    have hd : a.data ++ b.data = ([] : List Char) := by
      have h2 := congrArg String.data h
      simpa [String.data_append] using h2
    rcases List.append_eq_nil.mp hd with ⟨ha, hb⟩
    exact ⟨String.ext ha, String.ext hb⟩
  · rintro ⟨rfl, rfl⟩
    rfl

/-- Appending the empty string on the right is the identity. -/
theorem string_append_empty (a : String) : a ++ "" = a := by
  apply String.ext
  simp [String.data_append]

/-- Appending the empty string on the left is the identity. -/
theorem string_empty_append (a : String) : "" ++ a = a := by
  apply String.ext
  simp [String.data_append]

/-- The html block of a populated group is never the empty string: it ends
with a closing section tag. -/
theorem specGroupBlock_ne_empty (g : String × List SearchItem) :
    ¬ specGroupBlock g = "" := by
  intro h
  have h2 := (string_append_eq_empty_iff _ _).mp h
  exact absurd h2.2 (by decide)

/-- The per-group html of the renderer is empty for an empty item list and
the specification-side block otherwise. -/
theorem groupHtml_eq (t : String) (items : List SearchItem) :
    groupHtml t items = if items = [] then "" else specGroupBlock (t, items) := by
  rw [groupHtml, specGroupBlock]

/-! ## Claims -/

/-- C1: every successful rendering groups the results into exactly the
three fixed categories orders, customers, products in that fixed order;
every populated group renders its group header followed by one link row per
item (title, optional meta, link to the item's url — all folded into
`specGroupBlock`); and when all three arrays are absent or empty the panel
holds the single nothing-found placeholder instead. -/
theorem claim_C1 (p : SearchPayload) :
    (renderSearchResults p).hidden = false ∧
    (populatedGroups p = [] →
      (renderSearchResults p).innerHTML = nothingFoundHtml) ∧
    (¬ populatedGroups p = [] →
      (renderSearchResults p).innerHTML =
        String.join ((populatedGroups p).map specGroupBlock)) := by
  rcases ho : p.orders.getD [] with _ | ⟨a, as⟩ <;>
    rcases hc : p.customers.getD [] with _ | ⟨b, bs⟩ <;>
      rcases hp : p.products.getD [] with _ | ⟨d, ds⟩ <;>
        simp [renderSearchResults, populatedGroups, groupHtml_eq, ho, hc, hp,
          specGroupBlock_ne_empty, string_append_empty, string_empty_append,
          string_append_eq_empty_iff, String.join]

/-- Witness for C1 at a concrete populated payload. -/
theorem claim_C1_witness :
    (renderSearchResults ⟨some [⟨"/o/1", "Order 1", none⟩], none, none⟩).hidden = false ∧
    (renderSearchResults ⟨some [⟨"/o/1", "Order 1", none⟩], none, none⟩).innerHTML =
      String.join ((populatedGroups ⟨some [⟨"/o/1", "Order 1", none⟩], none, none⟩).map
        specGroupBlock) :=
  ⟨(claim_C1 ⟨some [⟨"/o/1", "Order 1", none⟩], none, none⟩).1,
   (claim_C1 ⟨some [⟨"/o/1", "Order 1", none⟩], none, none⟩).2.2 (by decide)⟩

/-- C2: the timer scheduled after any input event depends only on that
event's trimmed query (each new input event cancels the previously
scheduled request); a trimmed query shorter than 2 characters hides and
clears the panel and leaves nothing scheduled, so the elapsing debounce
window issues no request; and after a burst of rapid input events ending in
a trimmed query of length at least 2, the elapsing debounce window issues
exactly the one request for that last query. -/
theorem claim_C2 (s : SearchState) (vs : List String) (v : String) :
    ((searchInputStep s v).timer =
      if (jsTrim v).length < 2 then none else some (jsTrim v)) ∧
    ((jsTrim v).length < 2 →
      searchInputStep s v = ⟨⟨"", true⟩, none⟩ ∧
      (fireSearchTimer (searchInputStep s v)).2 = []) ∧
    (2 ≤ (jsTrim v).length →
      (fireSearchTimer (searchBurst s (vs ++ [v]))).2 = [jsTrim v]) := by
  refine ⟨?_, ?_, ?_⟩
  · by_cases h : (jsTrim v).length < 2 <;> simp [searchInputStep, h]
  · intro h
    simp [searchInputStep, h, fireSearchTimer]
  · intro h
    have hn : ¬ (jsTrim v).length < 2 := Nat.not_lt.mpr h
    rw [searchBurst, List.foldl_append]
    simp [searchInputStep, hn, fireSearchTimer]

/-- Witness for C2: a one-character query clears and hides the panel with
nothing scheduled, and a three-event burst ending in a long query issues
exactly one request, for that query. -/
theorem claim_C2_witness :
    (searchInputStep ⟨⟨"", true⟩, none⟩ " a " = ⟨⟨"", true⟩, none⟩ ∧
      (fireSearchTimer (searchInputStep ⟨⟨"", true⟩, none⟩ " a ")).2 = []) ∧
    (fireSearchTimer (searchBurst ⟨⟨"", true⟩, none⟩ (["or", "orde"] ++ [" order "]))).2 =
      ["order"] :=
  ⟨(claim_C2 ⟨⟨"", true⟩, none⟩ [] " a ").2.1 (by decide),
   (claim_C2 ⟨⟨"", true⟩, none⟩ ["or", "orde"] " order ").2.2 (by decide)⟩

/-- C3: a rejected fetch or a non-OK response leaves the fetch callback in
its catch clause, which shows the panel with the single search-error
placeholder; the callback is a total function, so no exception escapes it,
and it issues no follow-up request (no retry). -/
theorem claim_C3 (o : FetchOutcome)
    (h : o = FetchOutcome.fetchError ∨ ∃ body, o = FetchOutcome.response false body) :
    (searchFetchCallback o).1.hidden = false ∧
    (searchFetchCallback o).1.innerHTML = searchErrorHtml ∧
    (searchFetchCallback o).2 = [] := by
  rcases h with rfl | ⟨body, rfl⟩ <;> simp [searchFetchCallback]

/-- Witness for C3 at a concrete non-OK response. -/
theorem claim_C3_witness :
    (searchFetchCallback (FetchOutcome.response false none)).1.hidden = false ∧
    (searchFetchCallback (FetchOutcome.response false none)).1.innerHTML = searchErrorHtml ∧
    (searchFetchCallback (FetchOutcome.response false none)).2 = [] :=
  claim_C3 (FetchOutcome.response false none) (Or.inr ⟨none, rfl⟩)

/-- C4: accepting while a pending trigger is held always hides the dialog
and clears the pending reference; an anchor trigger with an href navigates
to it, and otherwise a submit-typed trigger with an owning form requests
submission of that form. -/
theorem claim_C4 (s : ConfirmState) (t : ConfirmTrigger) (h : s.pending = some t) :
    (confirmAcceptClick s).1.pending = none ∧
    (confirmAcceptClick s).1.modalShown = false ∧
    (t.tagName = "A" → ¬ t.href = "" →
      (confirmAcceptClick s).2 = [ConfirmEffect.navigate t.href]) ∧
    (¬ (t.tagName = "A" ∧ ¬ t.href = "") → t.button_type = "submit" →
      ∀ f, t.form = some f →
        (confirmAcceptClick s).2 = [ConfirmEffect.submitForm f]) := by
  rcases s with ⟨pending, shown⟩
  simp only [ConfirmState.pending] at h
  subst h
  refine ⟨rfl, rfl, ?_, ?_⟩
  · intro h1 h2
    simp [confirmAcceptClick, h1, h2]
  · intro hn hsub f hf
    simp [confirmAcceptClick, hn, hsub, hf]

/-- Witness for C4: a link trigger navigates, a submit trigger submits its
form, and both leave the dialog hidden with no pending trigger. -/
theorem claim_C4_witness :
    (confirmAcceptClick ⟨some ⟨"A", "/orders/9/delete/", "", none⟩, true⟩).1.pending = none ∧
    (confirmAcceptClick ⟨some ⟨"A", "/orders/9/delete/", "", none⟩, true⟩).2 =
      [ConfirmEffect.navigate "/orders/9/delete/"] ∧
    (confirmAcceptClick ⟨some ⟨"BUTTON", "", "submit", some "orderForm"⟩, true⟩).2 =
      [ConfirmEffect.submitForm "orderForm"] :=
  ⟨(claim_C4 ⟨some ⟨"A", "/orders/9/delete/", "", none⟩, true⟩ ⟨"A", "/orders/9/delete/", "", none⟩ rfl).1,
   (claim_C4 ⟨some ⟨"A", "/orders/9/delete/", "", none⟩, true⟩ ⟨"A", "/orders/9/delete/", "", none⟩ rfl).2.2.1
     rfl (by decide),
   (claim_C4 ⟨some ⟨"BUTTON", "", "submit", some "orderForm"⟩, true⟩ ⟨"BUTTON", "", "submit", some "orderForm"⟩ rfl).2.2.2
     (by decide) rfl "orderForm" rfl⟩

/-- C5: on a control not yet bound, the first application of the loading
state disables it and replaces its content with spinner plus resolved
label, and the transformation is idempotent: a second application leaves
the control exactly as the first left it. -/
theorem claim_C5 (b : SubmitButton) (h : ¬ b.loadingBound = some "1") :
    (setButtonLoadingState b).disabled = true ∧
    (setButtonLoadingState b).innerHTML = loadingHtml (jsOr b.loadingText "Збереження...") ∧
    setButtonLoadingState (setButtonLoadingState b) = setButtonLoadingState b := by
  simp [setButtonLoadingState, h]

/-- Witness for C5 at a concrete unbound submit control. -/
theorem claim_C5_witness :
    (setButtonLoadingState ⟨none, none, [], false, "Зберегти"⟩).disabled = true ∧
    (setButtonLoadingState ⟨none, none, [], false, "Зберегти"⟩).innerHTML =
      loadingHtml (jsOr none "Збереження...") ∧
    setButtonLoadingState (setButtonLoadingState ⟨none, none, [], false, "Зберегти"⟩) =
      setButtonLoadingState ⟨none, none, [], false, "Зберегти"⟩ :=
  claim_C5 ⟨none, none, [], false, "Зберегти"⟩ (by decide)

/-- C6: a click in a row carrying a nonempty row-link target navigates to
the target exactly when neither the click target nor any of its ancestors
is an interactive control. -/
theorem claim_C6 (chain : List String) (u : String) (hu : ¬ u = "") :
    (closestInteractive chain = true → rowClickNavigation chain (some u) = none) ∧
    (closestInteractive chain = false → rowClickNavigation chain (some u) = some u) := by
  constructor <;> intro h <;> simp [rowClickNavigation, h, hu]

/-- Witness for C6: a click on a nested button does not navigate, a click
on a plain cell does. -/
theorem claim_C6_witness :
    rowClickNavigation ["button", "td", "tr"] (some "/orders/5/") = none ∧
    rowClickNavigation ["span", "td", "tr"] (some "/orders/5/") = some "/orders/5/" :=
  ⟨(claim_C6 ["button", "td", "tr"] "/orders/5/" (by decide)).1 (by decide),
   (claim_C6 ["span", "td", "tr"] "/orders/5/" (by decide)).2 (by decide)⟩

/-- C7: while the focused element is an input, textarea or select, a
keydown whose lowercased key is not escape produces no shortcut effect at
all — in particular n does not navigate and f does not focus or select the
search input — and does not suppress the default behavior. -/
theorem claim_C7 (tag key : String) (newOrderLink : Option String) (hasSearch : Bool)
    (hTag : tag ∈ textEntryTags) (hKey : ¬ jsToLower key = "escape") :
    shortcutsKeydown (some tag) newOrderLink hasSearch key =
      { preventedDefault := false, effects := [] } := by
  simp [shortcutsKeydown, hTag, hKey]

/-- Witness for C7: while an input is focused, both n and f are inert. -/
theorem claim_C7_witness :
    shortcutsKeydown (some "INPUT") (some "/orders/create/") true "n" =
      { preventedDefault := false, effects := [] } ∧
    shortcutsKeydown (some "TEXTAREA") (some "/orders/create/") true "f" =
      { preventedDefault := false, effects := [] } :=
  ⟨claim_C7 "INPUT" "n" (some "/orders/create/") true (by decide) (by decide),
   claim_C7 "TEXTAREA" "f" (some "/orders/create/") true (by decide) (by decide)⟩

/-- C8: from any state produced by theme initialization over a storage
entry that is absent or holds one of the two documented values light and
dark (the persisted-preference contract of the interface), clicking the
toggle twice restores both the root attribute and the persisted value. -/
theorem claim_C8 (ht sys : Bool) (s0 : ThemeState)
    (h : s0.stored = none ∨ s0.stored = some "light" ∨ s0.stored = some "dark") :
    (themeToggleClick ht (themeToggleClick ht (initTheme ht sys s0))).rootAttr =
      (initTheme ht sys s0).rootAttr ∧
    (themeToggleClick ht (themeToggleClick ht (initTheme ht sys s0))).stored =
      (initTheme ht sys s0).stored := by
  rcases s0 with ⟨attr, stored, thtml⟩
  simp only [ThemeState.stored] at h
  rcases h with h | h | h <;> subst h <;> cases sys <;> exact ⟨rfl, rfl⟩

/-- Witness for C8: an absent stored value with a dark system preference. -/
theorem claim_C8_witness :
    (themeToggleClick true (themeToggleClick true (initTheme true true ⟨none, none, none⟩))).rootAttr =
      (initTheme true true ⟨none, none, none⟩).rootAttr ∧
    (themeToggleClick true (themeToggleClick true (initTheme true true ⟨none, none, none⟩))).stored =
      (initTheme true true ⟨none, none, none⟩).stored :=
  claim_C8 true true ⟨none, none, none⟩ (Or.inl rfl)

/-- C9: initialization over a storage entry that is absent or holds one of
the two documented values stores light or dark, and every toggle click,
from any state whatsoever, stores light or dark. -/
theorem claim_C9 (ht sys : Bool) (s0 s : ThemeState)
    (h : s0.stored = none ∨ s0.stored = some "light" ∨ s0.stored = some "dark") :
    ((initTheme ht sys s0).stored = some "light" ∨
      (initTheme ht sys s0).stored = some "dark") ∧
    ((themeToggleClick ht s).stored = some "light" ∨
      (themeToggleClick ht s).stored = some "dark") := by
  constructor
  · rcases s0 with ⟨attr, stored, thtml⟩
    simp only [ThemeState.stored] at h
    rcases h with h | h | h <;> subst h <;> cases sys <;> simp [initTheme, setTheme]
  · by_cases hd : s.rootAttr = some "dark" <;> simp [themeToggleClick, setTheme, hd]

/-- Witness for C9: initialization from a stored dark value, and a toggle
from the resulting state. -/
theorem claim_C9_witness :
    ((initTheme false false ⟨none, some "dark", none⟩).stored = some "light" ∨
      (initTheme false false ⟨none, some "dark", none⟩).stored = some "dark") ∧
    ((themeToggleClick false ⟨some "dark", some "dark", none⟩).stored = some "light" ∨
      (themeToggleClick false ⟨some "dark", some "dark", none⟩).stored = some "dark") :=
  claim_C9 false false ⟨none, some "dark", none⟩ ⟨some "dark", some "dark", none⟩
    (Or.inr (Or.inr rfl))

/-- C10: the result renderer always ends with the panel un-hidden,
whatever the payload — including the empty one, where the placeholder is
shown. -/
theorem claim_C10 (p : SearchPayload) : (renderSearchResults p).hidden = false := rfl

end CRMStore
